import Mathlib

/-!
Verification development for the EcoBin repository (src/app.py and
src/arduino_listener.py): a shallow embedding of the reward-token
lifecycle (issuance, lookup, redemption, QR serving) and of the
device-side intake pipeline (classification fallback, reward client,
trigger loop), with theorems settling the specification's claims.
-/

/-- The `RewardToken` database model of src/app.py (lines 121-131).
`id` is the integer primary key, `token` the externally visible string,
`redeemed_at` a timestamp (modelled as a `Nat`), `redeemed_by` the id of
the redeeming user (`redeemed_by_id` in the source). -/
structure RewardToken where
  id : Nat
  token : String
  material : String
  points : Nat
  redeemed : Bool
  redeemed_at : Option Nat
  redeemed_by : Option Nat
deriving DecidableEq

/-- The persistent server state touched by the embedded handlers:
the `RewardToken` table, each user's `points` column (an association
list from user id to balance), and the QR files stored under
`static/qr/` (an association list from token string to the URL the
stored image encodes). -/
structure ServerState where
  tokens : List RewardToken
  userPoints : List (Nat × Nat)
  qrFiles : List (String × String)
deriving DecidableEq

/-- Characters removed by Python's `str.strip()` with no argument
(ASCII whitespace). -/
def isPyStripChar (c : Char) : Bool :=
  c = ' ' || c = '\t' || c = '\n' || c = '\r' || c = '\x0b' || c = '\x0c'

/-- Python's `str.strip()`: drop leading and trailing whitespace. -/
def stripStr (s : String) : String :=
  String.mk (((s.data.dropWhile isPyStripChar).reverse.dropWhile isPyStripChar).reverse)

/-- Lowercase one ASCII character, as Python's `str.lower()` does on the
ASCII inputs the handlers compare against. -/
def lowerChar (c : Char) : Char :=
  if 'A' ≤ c ∧ c ≤ 'Z' then Char.ofNat (c.toNat + 32) else c

/-- Python's `str.lower()` (ASCII range). -/
def lowerStr (s : String) : String :=
  String.mk (s.data.map lowerChar)

/-- `RewardToken.query.filter_by(token=...).first()` over the table. -/
def findToken (s : ServerState) (t : String) : Option RewardToken :=
  s.tokens.find? (fun r => r.token == t)

/-- The mutation performed on the row loaded by a redeem handler
(src/app.py lines 390-392 and 286-288): set `redeemed = True`,
`redeemed_at = utcnow`, `redeemed_by = current_user`, on the row with
the given primary key. -/
def markRedeemed (tokens : List RewardToken) (rid u now : Nat) : List RewardToken :=
  tokens.map fun r =>
    if r.id = rid then
      { r with redeemed := true, redeemed_at := some now, redeemed_by := some u }
    else r

/-- `current_user.points += reward.points` (src/app.py lines 393 and 289):
add `pts` to user `u`'s balance. -/
def creditPoints (balances : List (Nat × Nat)) (u pts : Nat) : List (Nat × Nat) :=
  balances.map fun p => if p.1 = u then (p.1, p.2 + pts) else p

/-- Read a user's point balance from the state. -/
def lookupUser (balances : List (Nat × Nat)) (u : Nat) : Option Nat :=
  (balances.find? (fun p => p.1 == u)).map (fun p => p.2)

/-- Outcome of `POST /reward/<token>/redeem` (src/app.py lines 382-396):
`notFound` is the 404 from `first_or_404`, `alreadyRedeemed` the early
return with the "already used" warning, `success pts` the credit path. -/
inductive RedeemResult
  | notFound
  | alreadyRedeemed
  | success (pts : Nat)
deriving DecidableEq

/-- The SELECT phase of `redeem_reward` (src/app.py line 385): load the
row for the token as the handler's session observes it. -/
def redeemRead (s : ServerState) (t : String) : Option RewardToken :=
  findToken s t

/-- The check-and-commit phase of `redeem_reward` (src/app.py lines
385-394), acting on the row `obs` observed by the SELECT phase: 404 when
absent, early return when the observed row is redeemed, otherwise blindly
write the redeemed fields and credit the acting user, in one commit. -/
def redeemCommit (s : ServerState) (obs : Option RewardToken) (u now : Nat) :
    RedeemResult × ServerState :=
  match obs with
  | none => (RedeemResult.notFound, s)
  | some r =>
    if r.redeemed then (RedeemResult.alreadyRedeemed, s)
    else
      (RedeemResult.success r.points,
        { s with
            tokens := markRedeemed s.tokens r.id u now,
            userPoints := creditPoints s.userPoints u r.points })

/-- The `redeem_reward` handler (src/app.py lines 382-396) run in
isolation: its SELECT immediately followed by its check-and-commit. -/
def redeem_reward (s : ServerState) (t : String) (u now : Nat) :
    RedeemResult × ServerState :=
  redeemCommit s (redeemRead s t) u now

/-- Two concurrent `redeem_reward` requests for the same token under the
interleaving in which both SELECTs run before either commit (the commits
themselves serialize at the database). Caller 1 is user `u1` at time
`now1`, caller 2 user `u2` at time `now2`; returns both results and the
final state. -/
def racyRedeemPair (s : ServerState) (t : String) (u1 now1 u2 now2 : Nat) :
    RedeemResult × RedeemResult × ServerState :=
  let o1 := redeemRead s t
  let o2 := redeemRead s t
  let (r1, s1) := redeemCommit s o1 u1 now1
  let (r2, s2) := redeemCommit s1 o2 u2 now2
  (r1, r2, s2)

/-- Outcome of the `POST /scan` form handler (src/app.py lines 275-292):
`emptyInput` is the "enter a code" flash for a blank field, the rest
mirror `RedeemResult`. -/
inductive ScanResult
  | emptyInput
  | notFound
  | alreadyRedeemed
  | success (pts : Nat)
deriving DecidableEq

/-- The `scan` POST handler (src/app.py lines 275-292): strip the form
value, reject an empty code, then the same lookup / already-redeemed
check / redemption commit as `redeem_reward`. -/
def scan_post (s : ServerState) (rawToken : String) (u now : Nat) :
    ScanResult × ServerState :=
  let tokenValue := stripStr rawToken
  if tokenValue = "" then (ScanResult.emptyInput, s)
  else
    match findToken s tokenValue with
    | none => (ScanResult.notFound, s)
    | some r =>
      if r.redeemed then (ScanResult.alreadyRedeemed, s)
      else
        (ScanResult.success r.points,
          { s with
              tokens := markRedeemed s.tokens r.id u now,
              userPoints := creditPoints s.userPoints u r.points })

/-- `url_for("reward_details", token=t, _external=True)`: the redemption
details URL for a token, modelled with a fixed external host. -/
def rewardDetailsUrl (t : String) : String :=
  "/reward/" ++ t

/-- `build_qr_code` / `img.save(path)` (src/app.py lines 189-193): store
under the token's filename an image encoding `url` (the stored file is
modelled by the URL its QR image decodes to), overwriting any previous
file for that token. -/
def writeQrFile (files : List (String × String)) (t url : String) :
    List (String × String) :=
  (t, url) :: files.filter (fun p => p.1 != t)

/-- Content of the QR file for token `t`, when present. -/
def lookupQr (files : List (String × String)) (t : String) : Option String :=
  (files.find? (fun p => p.1 == t)).map (fun p => p.2)

/-- The `serve_qr` handler for `GET /reward/<token>/qrcode` (src/app.py
lines 399-406): 404 for an unknown token; otherwise build the QR file if
`path.exists()` is false, then serve the file's bytes (modelled by the
URL they decode to). -/
def serve_qr (s : ServerState) (t : String) : Option String × ServerState :=
  match findToken s t with
  | none => (none, s)
  | some _ =>
    let redeemUrl := rewardDetailsUrl t
    match lookupQr s.qrFiles t with
    | some content => (some content, s)
    | none =>
      (some redeemUrl, { s with qrFiles := writeQrFile s.qrFiles t redeemUrl })

/-- Outcome of `POST /api/reward` (src/app.py lines 409-438):
`unauthorized` is the 401, `badMaterial` the 400, `ok` the 200 payload
(token string, material, points). -/
inductive ApiResult
  | unauthorized
  | badMaterial
  | ok (token material : String) (pts : Nat)
deriving DecidableEq

/-- The `api_reward` handler (src/app.py lines 409-438). `apiKey` is the
`X-API-KEY` header (`none` when the header is missing), `cfgToken` the
configured `API_TOKEN`, `materialField` the `material` field of the JSON
body (`none` when missing), `freshToken` the `uuid4().hex` value drawn
for this call. A 401 or 400 returns before any row is added; otherwise a
new unredeemed row is inserted with the tariff points and the QR file is
built eagerly. -/
def api_reward (s : ServerState) (apiKey : Option String) (cfgToken : String)
    (materialField : Option String) (freshToken : String) :
    ApiResult × ServerState :=
  if apiKey ≠ some cfgToken then (ApiResult.unauthorized, s)
  else
    let material := lowerStr (materialField.getD "")
    if material ≠ "bottle" ∧ material ≠ "paper" then (ApiResult.badMaterial, s)
    else
      let pts := if material = "bottle" then 100 else 50
      let reward : RewardToken :=
        { id := s.tokens.length + 1, token := freshToken, material := material,
          points := pts, redeemed := false, redeemed_at := none, redeemed_by := none }
      (ApiResult.ok freshToken material pts,
        { s with
            tokens := s.tokens ++ [reward],
            qrFiles := writeQrFile s.qrFiles freshToken (rewardDetailsUrl freshToken) })

/-- The two frame statistics computed by `classify_material`
(src/arduino_listener.py lines 45-54): the fraction of blue pixels and
the mean grayscale intensity, modelled as rationals. -/
structure Frame where
  blueShare : Rat
  meanIntensity : Rat
deriving DecidableEq

/-- The operator-fallback branch of `classify_material`
(src/arduino_listener.py lines 59-60): strip and lowercase the operator's
response; anything outside {"paper", "p"} classifies as "bottle". The
operator is asked exactly once: this function consumes a single
response. -/
def fallback_classify (response : String) : String :=
  let r := lowerStr (stripStr response)
  if r ≠ "paper" ∧ r ≠ "p" then "bottle" else "paper"

/-- `classify_material` (src/arduino_listener.py lines 43-60): "bottle"
when the blue share exceeds 0.1, else "paper" when mean intensity
exceeds 150, else the operator fallback. `operatorInput = none` models
`input()` failing to obtain a response (closed stdin raises, aborting
the cycle): the classification yields no material. -/
def classify_material (f : Frame) (operatorInput : Option String) : Option String :=
  if f.blueShare > (1 / 10 : Rat) then some "bottle"
  else if f.meanIntensity > (150 : Rat) then some "paper"
  else operatorInput.map fallback_classify

/-- The material the intake loop body passes to `request_reward`
(src/arduino_listener.py lines 107-114), or `none` when no mint call
happens: a failed capture (`frame = none`) continues the loop without a
request, and an aborted fallback propagates out of `classify_material`
before any request is made. -/
def intakeMintCall (frame : Option Frame) (operatorInput : Option String) :
    Option String :=
  match frame with
  | none => none
  | some f => classify_material f operatorInput

/-- Outcome of one HTTP attempt of the reward client, as the server and
network can answer it: a 200 payload (modelled by its token string), a
401, a 400, or a network/server failure (connection error, timeout,
5xx). -/
inductive MintOutcome
  | ok (payload : String)
  | unauthorized
  | invalidMaterial
  | unavailable
deriving DecidableEq

/-- `request_reward` (src/arduino_listener.py lines 63-75) run against an
oracle giving the outcome each successive HTTP attempt would have. The
function posts once; `raise_for_status` turns 401/400 into the same
caught `RequestException` as a network failure, so every non-ok outcome
returns `none`. Returns the surfaced result and the number of attempts
made. -/
def request_reward (oracle : Nat → MintOutcome) : Option String × Nat :=
  match oracle 0 with
  | MintOutcome.ok p => (some p, 1)
  | _ => (none, 1)

/-- One serial read observed by the intake loop (src/arduino_listener.py
lines 93-104): either `ser.readline` raises `SerialException`, or it
yields a decoded, stripped line. -/
inductive ReadEvent
  | readError
  | line (s : String)
deriving DecidableEq

/-- What one loop iteration does with a read (src/arduino_listener.py
lines 93-106): a read error sleeps 1 second and continues
(`backoffRetry`); an empty or non-trigger line is silently skipped;
the trigger value starts a capture cycle. -/
inductive LoopAction
  | backoffRetry
  | ignored
  | triggered
deriving DecidableEq

/-- The dispatch on one read performed by the `while True` body of `main`
(src/arduino_listener.py lines 92-106), for a configured trigger
value. -/
def loopReadStep (trigger : String) (ev : ReadEvent) : LoopAction :=
  match ev with
  | ReadEvent.readError => LoopAction.backoffRetry
  | ReadEvent.line s =>
    if s = "" then LoopAction.ignored
    else if s ≠ trigger then LoopAction.ignored
    else LoopAction.triggered

/-- `main` of src/arduino_listener.py (lines 84-124) over a finite trace
of serial reads. `openOk = false` models `wait_for_trigger` raising
`SerialException`: the handler prints and calls `sys.exit(1)`, modelled
as `none` — the loop is never entered and the port is never re-opened.
With the port open, the loop handles every read in the trace (read
errors included) and the actions it takes are returned. -/
def ecobinMain (openOk : Bool) (trigger : String) (events : List ReadEvent) :
    Option (List LoopAction) :=
  if openOk then some (events.map (loopReadStep trigger)) else none

/-- The spec's per-record invariant on `RewardToken` (§3): an unredeemed
record carries neither `redeemed_at` nor `redeemed_by`; a redeemed
record carries both. -/
def tokenInv (r : RewardToken) : Prop :=
  (r.redeemed = false → r.redeemed_at = none ∧ r.redeemed_by = none) ∧
  (r.redeemed = true → r.redeemed_at.isSome = true ∧ r.redeemed_by.isSome = true)

instance (r : RewardToken) : Decidable (tokenInv r) := by
  unfold tokenInv; infer_instance

/-- Every record of the table satisfies `tokenInv`. -/
def stateInv (s : ServerState) : Prop :=
  ∀ r ∈ s.tokens, tokenInv r

instance (s : ServerState) : Decidable (stateInv s) := by
  unfold stateInv; infer_instance

/-- Every stored QR file decodes to the reward-details URL of the token
it is filed under — true of every file written by `api_reward` or
`serve_qr`, the only writers of the QR directory. -/
def qrInv (s : ServerState) : Prop :=
  ∀ p ∈ s.qrFiles, p.2 = rewardDetailsUrl p.1

instance (s : ServerState) : Decidable (qrInv s) := by
  unfold qrInv; infer_instance

/-- Per-row monotonicity of the `redeemed` flag between two table states:
a row that is redeemed is never reverted by an operation (rows are
identified by their position, which every embedded operation
preserves for existing rows). -/
def redeemMonotone (l lnew : List RewardToken) : Prop :=
  ∀ (i : Nat) (h : i < l.length) (hn : i < lnew.length),
    (l.get ⟨i, h⟩).redeemed = true → (lnew.get ⟨i, hn⟩).redeemed = true

/-- A fresh unredeemed token worth 100 points, as issued for a bottle. -/
def exToken : RewardToken :=
  { id := 1, token := "tok", material := "bottle", points := 100,
    redeemed := false, redeemed_at := none, redeemed_by := none }

/-- An already-redeemed 50-point paper token. -/
def exUsedToken : RewardToken :=
  { id := 2, token := "used", material := "paper", points := 50,
    redeemed := true, redeemed_at := some 3, redeemed_by := some 1 }

/-- A concrete server state: one fresh token, one redeemed token, two
user accounts with zero points, no QR files yet. -/
def exState : ServerState :=
  { tokens := [exToken, exUsedToken],
    userPoints := [(1, 0), (2, 0)],
    qrFiles := [] }

/-- A captured frame on which both heuristics are inconclusive: the blue
share sits at the 0.1 threshold and the mean intensity at 150 (the
source requires strict excess). -/
def exFrame : Frame :=
  { blueShare := 1 / 10, meanIntensity := 150 }

theorem mem_markRedeemed {l : List RewardToken} {rid u now : Nat} {r' : RewardToken}
    (h : r' ∈ markRedeemed l rid u now) :
    ∃ r0 ∈ l, r' = (if r0.id = rid then
      { r0 with redeemed := true, redeemed_at := some now, redeemed_by := some u }
      else r0) := by
  rcases List.mem_map.mp h with ⟨r0, hr0, hEq⟩
  exact ⟨r0, hr0, hEq.symm⟩

theorem tokenInv_markRedeemed {l : List RewardToken} {rid u now : Nat}
    (hl : ∀ r ∈ l, tokenInv r) :
    ∀ r' ∈ markRedeemed l rid u now, tokenInv r' := by
  intro r' h
  rcases mem_markRedeemed h with ⟨r0, hr0, hEq⟩
  subst hEq
  by_cases hid : r0.id = rid
  · simp [hid, tokenInv]
  · simpa [hid] using hl r0 hr0

theorem redeemMonotone_markRedeemed (l : List RewardToken) (rid u now : Nat) :
    redeemMonotone l (markRedeemed l rid u now) := by
  intro i h hn hred
  simp only [redeemMonotone, markRedeemed, List.get_eq_getElem, List.getElem_map]
  split
  · rfl
  · simpa using hred

theorem redeemMonotone_refl (l : List RewardToken) : redeemMonotone l l :=
  fun _ _ _ hred => hred

theorem redeemMonotone_append (l : List RewardToken) (r : RewardToken) :
    redeemMonotone l (l ++ [r]) := by
  intro i h hn hred
  simp only [List.get_eq_getElem]
  rw [List.getElem_append_left h]
  exact hred

theorem lookupUser_creditPoints (l : List (Nat × Nat)) (u pts : Nat) :
    lookupUser (creditPoints l u pts) u = (lookupUser l u).map (fun b => b + pts) := by
  induction l with
  | nil => rfl
  | cons p l ih =>
    by_cases hp : p.1 = u
    · simp [creditPoints, lookupUser, List.find?, hp]
    · have hbeq : (p.1 == u) = false := by simp [hp]
      simp only [creditPoints, List.map_cons, lookupUser, List.find?, hp, if_false, hbeq]
      simpa [creditPoints, lookupUser] using ih

theorem lookupQr_of_qrInv {s : ServerState} (hq : qrInv s) {t c : String}
    (h : lookupQr s.qrFiles t = some c) : c = rewardDetailsUrl t := by
  unfold lookupQr at h
  cases hfind : s.qrFiles.find? (fun p => p.1 == t) with
  | none => rw [hfind] at h; simp at h
  | some p =>
    rw [hfind] at h
    simp at h
    have hmem := List.mem_of_find?_eq_some hfind
    have hpred := List.find?_some hfind
    simp only [beq_iff_eq] at hpred
    rw [← h, hq p hmem, hpred]

theorem fallback_classify_det (resp : String) :
    fallback_classify resp = "bottle" ∨ fallback_classify resp = "paper" := by
  by_cases h : lowerStr (stripStr resp) ≠ "paper" ∧ lowerStr (stripStr resp) ≠ "p"
  · exact Or.inl (by simp [fallback_classify, h])
  · exact Or.inr (by simp [fallback_classify, h])

theorem redeem_reward_cases (s : ServerState) (t : String) (u now : Nat) :
    (findToken s t = none ∧ redeem_reward s t u now = (RedeemResult.notFound, s)) ∨
    (∃ r, findToken s t = some r ∧ r.redeemed = true ∧
      redeem_reward s t u now = (RedeemResult.alreadyRedeemed, s)) ∨
    (∃ r, findToken s t = some r ∧ r.redeemed = false ∧
      redeem_reward s t u now = (RedeemResult.success r.points,
        { s with tokens := markRedeemed s.tokens r.id u now,
                 userPoints := creditPoints s.userPoints u r.points })) := by
  unfold redeem_reward redeemCommit redeemRead
  cases hft : findToken s t with
  | none => exact Or.inl ⟨rfl, rfl⟩
  | some r =>
    by_cases hr : r.redeemed = true
    · exact Or.inr (Or.inl ⟨r, rfl, hr, by simp [hr]⟩)
    · exact Or.inr (Or.inr ⟨r, rfl, by simpa using hr, by simp [hr]⟩)

theorem scan_post_cases (s : ServerState) (raw : String) (u now : Nat) :
    (stripStr raw = "" ∧ scan_post s raw u now = (ScanResult.emptyInput, s)) ∨
    (stripStr raw ≠ "" ∧ findToken s (stripStr raw) = none ∧
      scan_post s raw u now = (ScanResult.notFound, s)) ∨
    (∃ r, stripStr raw ≠ "" ∧ findToken s (stripStr raw) = some r ∧ r.redeemed = true ∧
      scan_post s raw u now = (ScanResult.alreadyRedeemed, s)) ∨
    (∃ r, stripStr raw ≠ "" ∧ findToken s (stripStr raw) = some r ∧ r.redeemed = false ∧
      scan_post s raw u now = (ScanResult.success r.points,
        { s with tokens := markRedeemed s.tokens r.id u now,
                 userPoints := creditPoints s.userPoints u r.points })) := by
  unfold scan_post
  by_cases he : stripStr raw = ""
  · exact Or.inl ⟨he, by simp [he]⟩
  · simp only [he, if_false]
    cases hft : findToken s (stripStr raw) with
    | none => exact Or.inr (Or.inl ⟨he, rfl, by simp [he]⟩)
    | some r =>
      by_cases hr : r.redeemed = true
      · exact Or.inr (Or.inr (Or.inl ⟨r, he, rfl, hr, by simp [he, hr]⟩))
      · exact Or.inr (Or.inr (Or.inr ⟨r, he, rfl, by simpa using hr, by simp [he, hr]⟩))

theorem api_reward_cases (s : ServerState) (key : Option String) (cfg : String)
    (mat : Option String) (ft : String) :
    (key ≠ some cfg ∧ api_reward s key cfg mat ft = (ApiResult.unauthorized, s)) ∨
    (key = some cfg ∧ lowerStr (mat.getD "") ≠ "bottle" ∧ lowerStr (mat.getD "") ≠ "paper" ∧
      api_reward s key cfg mat ft = (ApiResult.badMaterial, s)) ∨
    (∃ pts, key = some cfg ∧
      (lowerStr (mat.getD "") = "bottle" ∨ lowerStr (mat.getD "") = "paper") ∧
      pts = (if lowerStr (mat.getD "") = "bottle" then 100 else 50) ∧
      api_reward s key cfg mat ft = (ApiResult.ok ft (lowerStr (mat.getD "")) pts,
        { s with
            tokens := s.tokens ++
              [({ id := s.tokens.length + 1,
                  token := ft,
                  material := lowerStr (mat.getD ""),
                  points := pts,
                  redeemed := false,
                  redeemed_at := none,
                  redeemed_by := none } : RewardToken)],
            qrFiles := writeQrFile s.qrFiles ft (rewardDetailsUrl ft) })) := by
  unfold api_reward
  by_cases hk : key = some cfg
  · by_cases hb : lowerStr (mat.getD "") = "bottle"
    · refine Or.inr (Or.inr ⟨100, hk, Or.inl hb, by simp [hb], ?_⟩)
      simp [hk, hb]
    · by_cases hp : lowerStr (mat.getD "") = "paper"
      · refine Or.inr (Or.inr ⟨50, hk, Or.inr hp, by simp [hb], ?_⟩)
        simp [hk, hb, hp]
      · exact Or.inr (Or.inl ⟨hk, hb, hp, by simp [hk, hb, hp]⟩)
  · exact Or.inl ⟨hk, by simp [hk]⟩

theorem serve_qr_cases (s : ServerState) (t : String) :
    (findToken s t = none ∧ serve_qr s t = (none, s)) ∨
    (∃ c, (findToken s t).isSome = true ∧ lookupQr s.qrFiles t = some c ∧
      serve_qr s t = (some c, s)) ∨
    ((findToken s t).isSome = true ∧ lookupQr s.qrFiles t = none ∧
      serve_qr s t = (some (rewardDetailsUrl t),
        { s with qrFiles := writeQrFile s.qrFiles t (rewardDetailsUrl t) })) := by
  unfold serve_qr
  cases hft : findToken s t with
  | none => exact Or.inl ⟨rfl, rfl⟩
  | some r =>
    cases hq : lookupQr s.qrFiles t with
    | none => exact Or.inr (Or.inr ⟨rfl, rfl, by simp [hq]⟩)
    | some c => exact Or.inr (Or.inl ⟨c, rfl, rfl, by simp [hq]⟩)

theorem stateInv_redeem_reward (s : ServerState) (t : String) (u now : Nat)
    (hs : stateInv s) : stateInv (redeem_reward s t u now).2 := by
  rcases redeem_reward_cases s t u now with ⟨_, he⟩ | ⟨r, _, _, he⟩ | ⟨r, _, _, he⟩ <;>
    rw [he]
  · exact hs
  · exact hs
  · exact tokenInv_markRedeemed hs

theorem mono_redeem_reward (s : ServerState) (t : String) (u now : Nat) :
    redeemMonotone s.tokens (redeem_reward s t u now).2.tokens := by
  rcases redeem_reward_cases s t u now with ⟨_, he⟩ | ⟨r, _, _, he⟩ | ⟨r, _, _, he⟩ <;>
    rw [he]
  · exact redeemMonotone_refl _
  · exact redeemMonotone_refl _
  · exact redeemMonotone_markRedeemed _ _ _ _

theorem stateInv_scan_post (s : ServerState) (raw : String) (u now : Nat)
    (hs : stateInv s) : stateInv (scan_post s raw u now).2 := by
  rcases scan_post_cases s raw u now with
    ⟨_, he⟩ | ⟨_, _, he⟩ | ⟨r, _, _, _, he⟩ | ⟨r, _, _, _, he⟩ <;> rw [he]
  · exact hs
  · exact hs
  · exact hs
  · exact tokenInv_markRedeemed hs

theorem mono_scan_post (s : ServerState) (raw : String) (u now : Nat) :
    redeemMonotone s.tokens (scan_post s raw u now).2.tokens := by
  rcases scan_post_cases s raw u now with
    ⟨_, he⟩ | ⟨_, _, he⟩ | ⟨r, _, _, _, he⟩ | ⟨r, _, _, _, he⟩ <;> rw [he]
  · exact redeemMonotone_refl _
  · exact redeemMonotone_refl _
  · exact redeemMonotone_refl _
  · exact redeemMonotone_markRedeemed _ _ _ _

theorem stateInv_api_reward (s : ServerState) (key : Option String) (cfg : String)
    (mat : Option String) (ft : String) (hs : stateInv s) :
    stateInv (api_reward s key cfg mat ft).2 := by
  rcases api_reward_cases s key cfg mat ft with
    ⟨_, he⟩ | ⟨_, _, _, he⟩ | ⟨pts, _, _, _, he⟩ <;> rw [he]
  · exact hs
  · exact hs
  · intro r hr
    rcases List.mem_append.mp hr with h | h
    · exact hs r h
    · simp only [List.mem_singleton] at h
      subst h
      exact ⟨fun _ => ⟨rfl, rfl⟩, fun hcontra => by simp at hcontra⟩

theorem mono_api_reward (s : ServerState) (key : Option String) (cfg : String)
    (mat : Option String) (ft : String) :
    redeemMonotone s.tokens (api_reward s key cfg mat ft).2.tokens := by
  rcases api_reward_cases s key cfg mat ft with
    ⟨_, he⟩ | ⟨_, _, _, he⟩ | ⟨pts, _, _, _, he⟩ <;> rw [he]
  · exact redeemMonotone_refl _
  · exact redeemMonotone_refl _
  · exact redeemMonotone_append _ _

theorem serve_qr_tokens (s : ServerState) (t : String) :
    (serve_qr s t).2.tokens = s.tokens := by
  rcases serve_qr_cases s t with ⟨_, he⟩ | ⟨c, _, _, he⟩ | ⟨_, _, he⟩ <;> rw [he]

theorem stateInv_serve_qr (s : ServerState) (t : String) (hs : stateInv s) :
    stateInv (serve_qr s t).2 := by
  unfold stateInv
  rw [serve_qr_tokens]
  exact hs

theorem mono_serve_qr (s : ServerState) (t : String) :
    redeemMonotone s.tokens (serve_qr s t).2.tokens := by
  unfold redeemMonotone
  rw [serve_qr_tokens]
  exact redeemMonotone_refl _

/-- Claim C1: the claim asserts that N concurrent redeem calls for one
token yield exactly one success, the others observing AlreadyRedeemed,
with the token's points credited once. The handler has no
compare-and-set or row lock: under the interleaving where both SELECTs
run before either commit (possible because the Flask dev server is
threaded and the UPDATE carries no not-yet-redeemed predicate), both
callers succeed and the 100-point token is credited twice — once to
each acting account. This theorem evaluates the code at that failing
input, refuting exactly-once redemption. -/
theorem C1_concurrent_double_redeem :
    (racyRedeemPair exState "tok" 1 5 2 6).1 = RedeemResult.success 100 ∧
    (racyRedeemPair exState "tok" 1 5 2 6).2.1 = RedeemResult.success 100 ∧
    lookupUser (racyRedeemPair exState "tok" 1 5 2 6).2.2.userPoints 1 = some 100 ∧
    lookupUser (racyRedeemPair exState "tok" 1 5 2 6).2.2.userPoints 2 = some 100 := by
  decide

/-- Claim C2: a redeem call on an already-redeemed token reports
AlreadyRedeemed (and the scan handler likewise), distinct from the
NotFound answer an unknown token gets, and leaves the whole server
state — balances, `redeemed_at`, `redeemed_by` — unchanged. -/
theorem C2_already_redeemed_safe (s : ServerState) (t : String) (u now : Nat)
    (r : RewardToken) (hf : findToken s t = some r) (hr : r.redeemed = true) :
    redeem_reward s t u now = (RedeemResult.alreadyRedeemed, s) ∧
    (stripStr t = t → t ≠ "" → scan_post s t u now = (ScanResult.alreadyRedeemed, s)) ∧
    (∀ tm, findToken s tm = none →
      redeem_reward s tm u now = (RedeemResult.notFound, s)) ∧
    RedeemResult.alreadyRedeemed ≠ RedeemResult.notFound := by
  refine ⟨?_, ?_, ?_, by decide⟩
  · rcases redeem_reward_cases s t u now with
      ⟨hf0, he⟩ | ⟨r0, hf0, hr0, he⟩ | ⟨r0, hf0, hr0, he⟩
    · rw [hf0] at hf; cases hf
    · exact he
    · rw [hf0] at hf
      cases hf
      rw [hr0] at hr
      cases hr
  · intro hst hne
    rcases scan_post_cases s t u now with
      ⟨h0, he⟩ | ⟨h0, hf0, he⟩ | ⟨r0, h0, hf0, hr0, he⟩ | ⟨r0, h0, hf0, hr0, he⟩
    · rw [hst] at h0; exact absurd h0 hne
    · rw [hst, hf] at hf0; cases hf0
    · exact he
    · rw [hst, hf] at hf0
      cases hf0
      rw [hr0] at hr
      cases hr
  · intro tm h
    rcases redeem_reward_cases s tm u now with
      ⟨hf0, he⟩ | ⟨r0, hf0, hr0, he⟩ | ⟨r0, hf0, hr0, he⟩
    · exact he
    · rw [h] at hf0; cases hf0
    · rw [h] at hf0; cases hf0

/-- Witness for C2 at a concrete state: redeeming the already-redeemed
token "used" reports AlreadyRedeemed and leaves the state unchanged. -/
theorem C2_witness :
    findToken exState "used" = some exUsedToken ∧ exUsedToken.redeemed = true ∧
    redeem_reward exState "used" 1 9 = (RedeemResult.alreadyRedeemed, exState) :=
  ⟨by decide, by decide,
    (C2_already_redeemed_safe exState "used" 1 9 exUsedToken (by decide) (by decide)).1⟩

/-- Claim C3: every embedded operation keeps every row inside the
RewardToken invariant (unredeemed rows carry no `redeemed_at` or
`redeemed_by`; redeemed rows carry both), the `redeemed` flag is
monotone (never reverts) under every operation, and a successful redeem
sets `redeemed`, `redeemed_at`, `redeemed_by` and the points credit
together in the one committed state. -/
theorem C3_invariants_preserved (s : ServerState) (t : String) (u now : Nat)
    (key : Option String) (cfg ft : String) (mat : Option String)
    (hs : stateInv s) :
    stateInv (redeem_reward s t u now).2 ∧
    stateInv (scan_post s t u now).2 ∧
    stateInv (api_reward s key cfg mat ft).2 ∧
    stateInv (serve_qr s t).2 ∧
    redeemMonotone s.tokens (redeem_reward s t u now).2.tokens ∧
    redeemMonotone s.tokens (scan_post s t u now).2.tokens ∧
    redeemMonotone s.tokens (api_reward s key cfg mat ft).2.tokens ∧
    redeemMonotone s.tokens (serve_qr s t).2.tokens ∧
    (∀ r, findToken s t = some r → r.redeemed = false →
      (redeem_reward s t u now).1 = RedeemResult.success r.points ∧
      (∀ rn ∈ (redeem_reward s t u now).2.tokens, rn.id = r.id →
        rn.redeemed = true ∧ rn.redeemed_at = some now ∧ rn.redeemed_by = some u) ∧
      (∀ b, lookupUser s.userPoints u = some b →
        lookupUser (redeem_reward s t u now).2.userPoints u = some (b + r.points))) := by
  refine ⟨stateInv_redeem_reward s t u now hs, stateInv_scan_post s t u now hs,
    stateInv_api_reward s key cfg mat ft hs, stateInv_serve_qr s t hs,
    mono_redeem_reward s t u now, mono_scan_post s t u now,
    mono_api_reward s key cfg mat ft, mono_serve_qr s t, ?_⟩
  intro r hf hr
  rcases redeem_reward_cases s t u now with
    ⟨hf0, he⟩ | ⟨r0, hf0, hr0, he⟩ | ⟨r0, hf0, hr0, he⟩
  · rw [hf0] at hf; cases hf
  · rw [hf0] at hf
    cases hf
    rw [hr] at hr0
    cases hr0
  · rw [hf0] at hf
    cases hf
    rw [he]
    refine ⟨rfl, ?_, ?_⟩
    · intro rn hrn hid
      rcases mem_markRedeemed hrn with ⟨rm, hrm, hEq⟩
      by_cases h0 : rm.id = r.id
      · rw [hEq]; simp [h0]
      · rw [hEq] at hid
        simp only [if_neg h0] at hid
        exact absurd hid h0
    · intro b hb
      show lookupUser (creditPoints s.userPoints u r.points) u = _
      rw [lookupUser_creditPoints, hb]
      rfl

/-- Witness for C3 at a concrete state satisfying the invariant. -/
theorem C3_witness :
    stateInv exState ∧ stateInv (redeem_reward exState "tok" 1 5).2 :=
  ⟨by decide,
    (C3_invariants_preserved exState "tok" 1 5 none "changeme" "ft" none (by decide)).1⟩

/-- Claim C4: with a valid credential, `api_reward` always prices
"bottle" at 100 points and "paper" at 50, both in the returned payload
and in the stored row; the points come from the fixed tariff and never
from the request body, and the result does not depend on the prior
state (so it is independent of call order). -/
theorem C4_tariff_deterministic (s : ServerState) (cfg ft : String)
    (mat : Option String) :
    (lowerStr (mat.getD "") = "bottle" →
      (api_reward s (some cfg) cfg mat ft).1 = ApiResult.ok ft "bottle" 100 ∧
      ∃ r ∈ (api_reward s (some cfg) cfg mat ft).2.tokens,
        r.token = ft ∧ r.material = "bottle" ∧ r.points = 100 ∧ r.redeemed = false) ∧
    (lowerStr (mat.getD "") = "paper" →
      (api_reward s (some cfg) cfg mat ft).1 = ApiResult.ok ft "paper" 50 ∧
      ∃ r ∈ (api_reward s (some cfg) cfg mat ft).2.tokens,
        r.token = ft ∧ r.material = "paper" ∧ r.points = 50 ∧ r.redeemed = false) := by
  constructor
  · intro hm
    rcases api_reward_cases s (some cfg) cfg mat ft with
      ⟨hk, he⟩ | ⟨hk, hb, hp, he⟩ | ⟨pts, hk, hbp, hpts, he⟩
    · exact absurd rfl hk
    · exact absurd hm hb
    · rw [hm] at hpts he
      simp only [if_pos rfl] at hpts
      subst hpts
      rw [he]
      refine ⟨rfl, ?_⟩
      exact ⟨_, List.mem_append_right _ (List.mem_singleton.mpr rfl), rfl, rfl, rfl, rfl⟩
  · intro hm
    rcases api_reward_cases s (some cfg) cfg mat ft with
      ⟨hk, he⟩ | ⟨hk, hb, hp, he⟩ | ⟨pts, hk, hbp, hpts, he⟩
    · exact absurd rfl hk
    · exact absurd hm hp
    · have hnb : lowerStr (mat.getD "") ≠ "bottle" := by
        rw [hm]; decide
      rw [hm] at he
      rw [if_neg hnb] at hpts
      subst hpts
      rw [he]
      refine ⟨rfl, ?_⟩
      exact ⟨_, List.mem_append_right _ (List.mem_singleton.mpr rfl), rfl, rfl, rfl, rfl⟩

/-- Witness for C4: a "Bottle" body mints at 100 points and a "paper"
body at 50, on the concrete example state. -/
theorem C4_witness :
    (api_reward exState (some "changeme") "changeme" (some "Bottle") "ft").1 =
      ApiResult.ok "ft" "bottle" 100 ∧
    (api_reward exState (some "changeme") "changeme" (some "paper") "ft2").1 =
      ApiResult.ok "ft2" "paper" 50 :=
  ⟨((C4_tariff_deterministic exState "changeme" "ft" (some "Bottle")).1 (by decide)).1,
   ((C4_tariff_deterministic exState "changeme" "ft2" (some "paper")).2 (by decide)).1⟩

/-- Claim C5: a wrong or missing `X-API-KEY` yields the 401 result and a
body whose material is outside the tariff yields the 400 result, and in
both cases the returned state is exactly the input state — no
RewardToken row is created and nothing else changes. -/
theorem C5_rejects_leave_state_unchanged (s : ServerState) (key : Option String)
    (cfg ft : String) (mat : Option String) :
    (key ≠ some cfg → api_reward s key cfg mat ft = (ApiResult.unauthorized, s)) ∧
    (lowerStr (mat.getD "") ≠ "bottle" → lowerStr (mat.getD "") ≠ "paper" →
      api_reward s (some cfg) cfg mat ft = (ApiResult.badMaterial, s)) := by
  constructor
  · intro hk
    rcases api_reward_cases s key cfg mat ft with
      ⟨_, he⟩ | ⟨hk0, _, _, he⟩ | ⟨pts, hk0, _, _, he⟩
    · exact he
    · exact absurd hk0 hk
    · exact absurd hk0 hk
  · intro hb hp
    rcases api_reward_cases s (some cfg) cfg mat ft with
      ⟨hk0, he⟩ | ⟨_, _, _, he⟩ | ⟨pts, _, hbp, _, he⟩
    · exact absurd rfl hk0
    · exact he
    · rcases hbp with h | h
      · exact absurd h hb
      · exact absurd h hp

/-- Witness for C5: a missing header gets 401 and an unknown material
gets 400, each leaving the example state untouched. -/
theorem C5_witness :
    api_reward exState none "changeme" (some "bottle") "ft" =
      (ApiResult.unauthorized, exState) ∧
    api_reward exState (some "changeme") "changeme" (some "glass") "ft" =
      (ApiResult.badMaterial, exState) :=
  ⟨(C5_rejects_leave_state_unchanged exState none "changeme" "ft" (some "bottle")).1
      (by decide),
   (C5_rejects_leave_state_unchanged exState (some "changeme") "changeme" "ft"
      (some "glass")).2 (by decide) (by decide)⟩

/-- Counterexample for C6: the claim says an Unavailable failure is
retried with backoff for up to 3 attempts. Against an oracle whose
first attempt is Unavailable and whose second would succeed, the client
would then have to make at least a second attempt; `request_reward`
makes exactly one, refuting the claim. -/
theorem C6_counterexample :
    ¬ (∀ oracle : Nat → MintOutcome, oracle 0 = MintOutcome.unavailable →
        2 ≤ (request_reward oracle).2) := by
  intro hclaim
  have h := hclaim
    (fun n => if n = 0 then MintOutcome.unavailable else MintOutcome.ok "p") rfl
  exact absurd h (by decide)

/-- Claim C6 as amended: the client makes exactly one HTTP attempt per
mint call and never retries anything — Unauthorized, InvalidMaterial
and Unavailable are all surfaced immediately to the intake agent as
`none` after the single attempt, and a first-attempt success is
returned as-is. -/
theorem C6_single_attempt_no_retry (oracle : Nat → MintOutcome) :
    (request_reward oracle).2 = 1 ∧
    (oracle 0 = MintOutcome.unauthorized → (request_reward oracle).1 = none) ∧
    (oracle 0 = MintOutcome.invalidMaterial → (request_reward oracle).1 = none) ∧
    (oracle 0 = MintOutcome.unavailable → (request_reward oracle).1 = none) ∧
    (∀ p, oracle 0 = MintOutcome.ok p → (request_reward oracle).1 = some p) := by
  cases h : oracle 0 <;> simp [request_reward, h]

/-- Witness for C6's amended claim at a concrete oracle that always
answers Unavailable: one attempt, failure surfaced. -/
theorem C6_witness :
    (request_reward (fun _ => MintOutcome.unavailable)).2 = 1 ∧
    (request_reward (fun _ => MintOutcome.unavailable)).1 = none :=
  ⟨(C6_single_attempt_no_retry (fun _ => MintOutcome.unavailable)).1,
   (C6_single_attempt_no_retry (fun _ => MintOutcome.unavailable)).2.2.2.1 rfl⟩

/-- Counterexample for C7: the claim says that on every transport
failure, including a failure to open the channel, the agent backs off
and retries opening indefinitely — so the run never ends in a permanent
exit. With the port failing to open, `ecobinMain` is `none` (the
`sys.exit(1)` path) on the empty trace, refuting the claim. -/
theorem C7_counterexample :
    ¬ (∀ events : List ReadEvent, ecobinMain false "1" events ≠ none) := by
  intro hclaim
  exact hclaim [] rfl

/-- Claim C7 as amended: if opening the serial port fails at startup the
program exits with status 1 and never retries opening; once the port is
open, a read failure is handled inside the loop with a fixed 1-second
backoff and the loop continues — read errors never terminate it, every
event of the trace is handled. -/
theorem C7_open_fail_exits_loop_survives (trigger : String) (events : List ReadEvent) :
    ecobinMain false trigger events = none ∧
    (∃ acts, ecobinMain true trigger events = some acts ∧
      acts.length = events.length) ∧
    loopReadStep trigger ReadEvent.readError = LoopAction.backoffRetry :=
  ⟨rfl, ⟨events.map (loopReadStep trigger), rfl, by simp⟩, rfl⟩

/-- Claim C8: the intake agent never calls the reward API with an
undetermined material. If capture succeeded but both heuristics are
inconclusive and no operator response is obtainable, the cycle aborts
with no mint call; and whenever a mint call does happen, the material
passed is "bottle" or "paper". -/
theorem C8_no_undetermined_mint (frame : Option Frame) (op : Option String) :
    (∀ f, frame = some f → ¬ (f.blueShare > (1 / 10 : Rat)) →
      ¬ (f.meanIntensity > (150 : Rat)) → op = none →
      intakeMintCall frame op = none) ∧
    (∀ m, intakeMintCall frame op = some m → m = "bottle" ∨ m = "paper") := by
  constructor
  · intro f hf h1 h2 hop
    subst hf
    subst hop
    show classify_material f none = none
    unfold classify_material
    rw [if_neg h1, if_neg h2]
    rfl
  · intro m hm
    cases frame with
    | none => cases hm
    | some f =>
      have hm2 : classify_material f op = some m := hm
      unfold classify_material at hm2
      by_cases h1 : f.blueShare > (1 / 10 : Rat)
      · rw [if_pos h1] at hm2
        cases hm2
        exact Or.inl rfl
      · rw [if_neg h1] at hm2
        by_cases h2 : f.meanIntensity > (150 : Rat)
        · rw [if_pos h2] at hm2
          cases hm2
          exact Or.inr rfl
        · rw [if_neg h2] at hm2
          cases op with
          | none => cases hm2
          | some resp =>
            simp only [Option.map] at hm2
            cases hm2
            exact fallback_classify_det resp

/-- Witness for C8 at a frame sitting exactly on both thresholds (so
neither heuristic fires) with no operator input: no mint call. -/
theorem C8_witness :
    intakeMintCall (some exFrame) none = none :=
  (C8_no_undetermined_mint (some exFrame) none).1 exFrame rfl
    (lt_irrefl _) (lt_irrefl _) rfl

/-- Claim C9: for an existing token, `serve_qr` returns bytes decoding
to the reward-details URL of that token (which contains the token), a
repeated call returns the same bytes without touching the state again —
so the image is generated at most once and cached under the token
string — and if the file already exists the first call generates
nothing either. -/
theorem C9_qr_lazy_idempotent (s : ServerState) (t : String)
    (hq : qrInv s) (hf : (findToken s t).isSome = true) :
    (serve_qr s t).1 = some (rewardDetailsUrl t) ∧
    serve_qr (serve_qr s t).2 t = (some (rewardDetailsUrl t), (serve_qr s t).2) ∧
    (lookupQr s.qrFiles t ≠ none → (serve_qr s t).2 = s) ∧
    (∃ pre, rewardDetailsUrl t = pre ++ t) := by
  rcases serve_qr_cases s t with ⟨hf0, he⟩ | ⟨c, _, hl, he⟩ | ⟨_, hl, he⟩
  · rw [hf0] at hf; cases hf
  · have hc : c = rewardDetailsUrl t := lookupQr_of_qrInv hq hl
    subst hc
    rw [he]
    refine ⟨rfl, ?_, fun _ => rfl, ⟨"/reward/", rfl⟩⟩
    rcases serve_qr_cases s t with ⟨hf0, he2⟩ | ⟨c2, _, hl2, he2⟩ | ⟨_, hl2, he2⟩
    · rw [hf0] at hf; cases hf
    · rw [hl] at hl2
      cases hl2
      exact he2
    · rw [hl] at hl2; cases hl2
  · rw [he]
    refine ⟨rfl, ?_, fun hcon => absurd hl hcon, ⟨"/reward/", rfl⟩⟩
    set snew : ServerState :=
      { s with qrFiles := writeQrFile s.qrFiles t (rewardDetailsUrl t) } with hsnew
    have hfind2 : findToken snew t = findToken s t := rfl
    have hl2 : lookupQr snew.qrFiles t = some (rewardDetailsUrl t) := by
      show lookupQr (writeQrFile s.qrFiles t (rewardDetailsUrl t)) t = _
      simp [lookupQr, writeQrFile, List.find?]
    rcases serve_qr_cases snew t with ⟨hf0, he2⟩ | ⟨c2, _, hl3, he2⟩ | ⟨_, hl3, he2⟩
    · rw [hfind2] at hf0
      rw [hf0] at hf
      cases hf
    · rw [hl2] at hl3
      cases hl3
      exact he2
    · rw [hl2] at hl3; cases hl3

/-- Witness for C9 on the example state (no QR file yet) and its fresh
token. -/
theorem C9_witness :
    qrInv exState ∧ (findToken exState "tok").isSome = true ∧
    (serve_qr exState "tok").1 = some (rewardDetailsUrl "tok") :=
  ⟨by decide, by decide,
    (C9_qr_lazy_idempotent exState "tok" (by decide) (by decide)).1⟩

/-- Claim C10: in the operator fallback, any response whose stripped,
lowercased form is neither "paper" nor "p" — the empty string included —
classifies as "bottle"; the fallback consumes a single response (the
operator is never re-prompted) and always returns one of the two
determinate materials. -/
theorem C10_fallback_defaults_to_bottle (resp : String) :
    (lowerStr (stripStr resp) ≠ "paper" → lowerStr (stripStr resp) ≠ "p" →
      fallback_classify resp = "bottle") ∧
    (fallback_classify resp = "bottle" ∨ fallback_classify resp = "paper") := by
  constructor
  · intro h1 h2
    simp [fallback_classify, h1, h2]
  · exact fallback_classify_det resp

/-- Witness for C10 at the empty operator response. -/
theorem C10_witness :
    lowerStr (stripStr "") ≠ "paper" ∧ fallback_classify "" = "bottle" :=
  ⟨by decide, (C10_fallback_defaults_to_bottle "").1 (by decide) (by decide)⟩
